import Mathlib

/-!
Verification of the `mlem` scipy sparse-matrix codec
(`mlem/contrib/scipy.py`) and the CLI decorator helpers
(`mlem/cli/main.py`) against their natural-language specification.

The Python source is shallowly embedded: pure functions become Lean
functions, Python exceptions become an `Except` error channel, the
`with`-statement over `Storage.open` becomes a combinator that records an
acquire/release event trace, and the analytics wrapper records a call
trace.  Behaviour of collaborators that live outside the provided sources
(`mlem.core.data_type`, `mlem.core.metadata`, `scipy.sparse`) is modelled
from the specification and marked as such in doc comments.
-/

/-- A scipy sparse matrix value as relevant to the codec: its dtype name,
its shape, and the stored nonzero entries (row, column, value). -/
structure SpMatrix where
  dtypeName : String
  rows : Nat
  cols : Nat
  entries : List (Nat × Nat × Int)
deriving Repr, DecidableEq

/-- The nonzero structure of a matrix: the positions of its stored
entries. -/
def SpMatrix.nonzeroPositions (m : SpMatrix) : List (Nat × Nat) :=
  m.entries.map (fun e => (e.1, e.2.1))

/-- The variant's equivalence from the spec: same dtype and same nonzero
structure. -/
def SpMatrix.equiv (a b : SpMatrix) : Prop :=
  a.dtypeName = b.dtypeName ∧ a.nonzeroPositions = b.nonzeroPositions

instance (a b : SpMatrix) : Decidable (SpMatrix.equiv a b) := by
  unfold SpMatrix.equiv
  infer_instance

/-- A Python runtime value as seen by `ScipySparseMatrix.process`:
it may or may not actually be an instance of `scipy.sparse.spmatrix`
(recorded in `isSparseMatrix`); `dtypeName` is `obj.dtype.name` when the
object has a `dtype` attribute; `matrix` is the matrix content when the
value really is a sparse matrix. -/
structure PyValue where
  isSparseMatrix : Bool
  dtypeName : Option String
  matrix : Option SpMatrix
deriving Repr, DecidableEq

/-- The Python view of an actual sparse matrix: it is an `spmatrix`
instance and its `dtype.name` attribute agrees with the matrix dtype. -/
def PyValue.ofMatrix (v : SpMatrix) : PyValue :=
  { isSparseMatrix := true, dtypeName := some v.dtypeName, matrix := some v }

/-- Python exception kinds raised (or specified) by the embedded code.
`valueError` carries the formatted message, `attributeError` the missing
attribute, `wrongMetaType` the actual and the required class,
`fileNotFound` the path.  `notSupported` is the mlem error class the spec
names for unimplemented capabilities; `notImplementedError` is Python's
builtin. -/
inductive PyError
  | valueError (msg : String)
  | notImplementedError
  | notSupported
  | attributeError (attr : String)
  | wrongMetaType (actual : String) (required : String)
  | fileNotFound (path : String)
deriving Repr, DecidableEq

/-- `ScipySparseMatrix`: the `DataType` variant for scipy sparse matrices.
`dtype` is the declared field; `data` is the bound runtime value
(`DataType.data`, set by `bind`), absent on an unbound descriptor. -/
structure ScipySparseMatrix where
  dtype : String
  data : Option SpMatrix := none
deriving Repr, DecidableEq

/-- `ScipySparseMatrix.process`: `return ScipySparseMatrix(dtype=obj.dtype.name)`.
Accessing `obj.dtype` on a value without that attribute raises
`AttributeError`; otherwise the returned descriptor records only the
dtype name and is unbound. -/
def ScipySparseMatrix.process (obj : PyValue) : Except PyError ScipySparseMatrix :=
  match obj.dtypeName with
  | some n => .ok { dtype := n, data := none }
  | none => .error (.attributeError "dtype")

/-- Modelled from the spec: `DataType.bind` (declared in
`mlem.core.data_type`, not part of the provided sources) attaches the
runtime value to the descriptor, making it a bound `DataType`. -/
def ScipySparseMatrix.bind (dt : ScipySparseMatrix) (v : SpMatrix) : ScipySparseMatrix :=
  { dt with data := some v }

/-- Modelled from the spec: pydantic `.copy()` produces a fresh instance
with equal fields; "binds it to a copy of the stored descriptor", so the
stored descriptor itself is never mutated by a read. -/
def ScipySparseMatrix.copy (dt : ScipySparseMatrix) : ScipySparseMatrix :=
  { dtype := dt.dtype, data := dt.data }

/-- The serialized `.npz` payload.  Modelled from the spec: scipy's
`save_npz`/`load_npz` pair is an external codec that faithfully
round-trips a sparse matrix (same dtype, same nonzero structure). -/
structure NpzBlob where
  content : SpMatrix
deriving Repr, DecidableEq

/-- Modelled from the spec: `scipy.sparse.save_npz` serializes the
matrix into the open handle. -/
def save_npz (m : SpMatrix) : NpzBlob := ⟨m⟩

/-- Modelled from the spec: `scipy.sparse.load_npz` reconstructs the
matrix from the persisted payload. -/
def load_npz (b : NpzBlob) : SpMatrix := b.content

/-- Modelled from the spec: `DataWriter.art_name`, the writer-declared
constant artifact name (declared in `mlem.core.data_type`, not part of
the provided sources); the spec gives `"data"` as the logical name. -/
def DataWriter.art_name : String := "data"

/-- A storage backend handle; the concrete backend is an injected
collaborator, so only its location prefix is modelled. -/
structure Storage where
  uri : String
deriving Repr, DecidableEq

/-- A named, addressable persisted blob produced by a write. -/
structure Artifact where
  loc : String
  blob : NpzBlob
deriving Repr, DecidableEq

/-- The artifact map (a Python dict keyed by logical artifact name). -/
def Artifacts := List (String × Artifact)
deriving instance Repr, DecidableEq for Artifacts

/-- Dict membership/lookup of a logical name in the artifact map. -/
def Artifacts.find (arts : Artifacts) (key : String) : Option Artifact :=
  match arts with
  | [] => none
  | (k, a) :: rest => if k = key then some a else Artifacts.find rest key

/-- Events on the storage resource, used to state the scoped-acquisition
contract of `with storage.open(path) as (f, art)`. -/
inductive StorageEvent
  | acquireHandle (path : String)
  | releaseHandle (path : String)
deriving Repr, DecidableEq

/-- Modelled from the spec: `Storage.open` (declared in
`mlem.core.artifacts`, not part of the provided sources) is a scoped
acquisition: the body runs against the open handle and the handle is
released on every exit path, including when the body raises; the
resulting artifact records what the body wrote. -/
def withStorageOpen (storage : Storage) (path : String)
    (body : Except PyError NpzBlob) :
    Except PyError Artifact × List StorageEvent :=
  (match body with
   | .ok b => .ok { loc := storage.uri ++ "/" ++ path, blob := b }
   | .error e => .error e,
   [.acquireHandle path, .releaseHandle path])

/-- `sparse.save_npz(f, data.data)` where `data` is the `DataType`
passed to the writer: serializing an unbound descriptor (whose `data`
attribute is absent) raises; otherwise the matrix is serialized. -/
def saveBoundData (data : Option SpMatrix) : Except PyError NpzBlob :=
  match data with
  | some m => .ok (save_npz m)
  | none => .error (.attributeError "data")

/-- `ScipyWriter`: the writer paired with `ScipySparseMatrix`; it has no
fields of its own. -/
structure ScipyWriter where
deriving Repr, DecidableEq

/-- `ScipyReader`: holds the stored descriptor in its `data_type` field. -/
structure ScipyReader where
  data_type : ScipySparseMatrix
deriving Repr, DecidableEq

/-- `ScipyWriter.write`: opens one scoped storage handle, saves
`data.data` into it, and returns `(ScipyReader(data_type=data),
{self.art_name: art})` together with the storage event trace. -/
def ScipyWriter.write (_w : ScipyWriter) (data : ScipySparseMatrix)
    (storage : Storage) (path : String) :
    Except PyError (ScipyReader × Artifacts) × List StorageEvent :=
  let (res, events) := withStorageOpen storage path (saveBoundData data.data)
  (Except.map (fun art => ({ data_type := data }, [(DataWriter.art_name, art)])) res,
   events)

/-- Rendering of the artifact map used in the `ValueError` message (the
Python f-string interpolates the dict; the keys identify the offending
artifacts). -/
def Artifacts.render (arts : Artifacts) : String :=
  String.intercalate ", " (arts.map (fun kv => kv.1 ++ ": " ++ kv.2.1))

/-- The `ValueError` message raised by `ScipyReader.read` on a malformed
artifact set, carrying the offending artifacts. -/
def wrongArtifactsMsg (arts : Artifacts) : String :=
  "Wrong artifacts " ++ Artifacts.render arts ++ ": should be one "
    ++ DataWriter.art_name ++ " file"

/-- `ScipyReader.read`: fails with `ValueError` when
`DataWriter.art_name` is missing from the artifact map; otherwise loads
the payload and returns `self.data_type.copy().bind(data)`.  The reader
after the call is returned as well: the method never assigns to `self`,
so the post-state equals the pre-state. -/
def ScipyReader.read (r : ScipyReader) (artifacts : Artifacts) :
    Except PyError ScipySparseMatrix × ScipyReader :=
  match Artifacts.find artifacts DataWriter.art_name with
  | none => (.error (.valueError (wrongArtifactsMsg artifacts)), r)
  | some art =>
      let data := load_npz art.blob
      (.ok (ScipySparseMatrix.bind (ScipySparseMatrix.copy r.data_type) data), r)

/-- `ScipyReader.read_batch`: `raise NotImplementedError` unconditionally. -/
def ScipyReader.read_batch (_r : ScipyReader) (_artifacts : Artifacts)
    (_batch_size : Int) : Except PyError (List ScipySparseMatrix) :=
  .error .notImplementedError

/-- A file system as seen by `open(load, "r")`: a map from path to text
content; a missing path raises `FileNotFoundError`. -/
structure FileSystem where
  files : List (String × String)
deriving Repr, DecidableEq

/-- Association lookup, the dict lookup of the embedding. -/
def assocFind {β : Type} : List (String × β) → String → Option β
  | [], _ => none
  | (k, v) :: rest, key => if k = key then some v else assocFind rest key

/-- Content of a path, when present. -/
def FileSystem.readFile (fs : FileSystem) (p : String) : Option String :=
  assocFind fs.files p

/-- The inner function produced by the `config_arg` decorator: when the
load option (`-l`) is supplied, the object is parsed and validated from
that file's content (`parse_obj_as(model, safe_load(of))`, abstracted as
the injected `parse`); otherwise it is built by
`build_mlem_object(model, subtype, conf, file_conf)` (abstracted as the
injected `build`; declared in `mlem.core.base`, not part of the provided
sources). -/
def config_arg_inner {α : Type}
    (parse : String → Except PyError α)
    (build : String → List String → List String → Except PyError α)
    (fs : FileSystem)
    (load : Option String) (subtype : String)
    (conf : List String) (file_conf : List String) : Except PyError α :=
  match load with
  | some p =>
      match fs.readFile p with
      | none => .error (.fileNotFound p)
      | some content => parse content
  | none => build subtype conf file_conf

/-- A loaded `MlemMeta` object: its concrete class name together with all
class names `isinstance` would accept for it (its own class and every
ancestor). -/
structure MlemMeta where
  className : String
  ancestorNames : List String
deriving Repr, DecidableEq

/-- Python `isinstance(meta, cls)` over the modelled class hierarchy. -/
def MlemMeta.isInstanceOf (m : MlemMeta) (cls : String) : Bool :=
  m.ancestorNames.contains cls

/-- The inner function produced by the `with_meta` decorator: it loads
the metadata at `path` (via the injected `loadMeta`, standing for
`mlem.core.metadata.load_meta`, which is not part of the provided
sources: modelled from the spec, it resolves path/repo/rev and either
returns the object or fails), then, when `force_cls` is given and the
loaded object is not an instance of it, raises `WrongMetaType`;
otherwise the command body `f` receives the loaded object. -/
def with_meta_inner {α : Type}
    (loadMeta : String → Option String → Option String → Except PyError MlemMeta)
    (force_cls : Option String) (f : MlemMeta → α)
    (path : String) (repo rev : Option String) : Except PyError α :=
  match loadMeta path repo rev with
  | .error e => .error e
  | .ok meta =>
      match force_cls with
      | some cls =>
          if meta.isInstanceOf cls then .ok (f meta)
          else .error (.wrongMetaType meta.className cls)
      | none => .ok (f meta)

/-- A Python exception as observed by `_send_analytics`: its type name
(used for `str(type(e))`) and message. -/
structure PyExn where
  typeName : String
  msg : String
deriving Repr, DecidableEq

/-- `str(type(e))` as rendered by Python. -/
def exnTypeStr (e : PyExn) : String :=
  "<class " ++ e.typeName ++ ">"

/-- `{f"cmd_{cmd_name}_{k}": v for k, v in res.items()}`. -/
def prefixedRes (cmdName : String) (res : List (String × String)) :
    List (String × String) :=
  res.map (fun kv => ("cmd_" ++ cmdName ++ "_" ++ kv.1, kv.2))

/-- Observable events of one invocation of the wrapper built by
`_send_analytics`: the call into the wrapped command function and the
`send_cli_call` performed in the `finally` block. -/
inductive CliEvent
  | callWrapped
  | sendCliCall (cmd : String) (errorMsg : Option String)
      (res : List (String × String))
deriving Repr, DecidableEq

/-- The `inner` function built by `_send_analytics(cmd_name)`: it calls
the wrapped function once (`fResult` is the outcome of that single
call — a result dict, `None`, or a raised exception), records
`send_cli_call` in the `finally` block, and re-raises the original
exception unchanged; on success `inner` itself returns `None`.  The
event trace lists the observable effects in order. -/
def sendAnalyticsInner (cmdName : String)
    (fResult : Except PyExn (Option (List (String × String)))) :
    Except PyExn Unit × List CliEvent :=
  match fResult with
  | .ok r =>
      let res := prefixedRes cmdName (r.getD [])
      (.ok (), [.callWrapped, .sendCliCall cmdName none res])
  | .error e =>
      (.error e, [.callWrapped, .sendCliCall cmdName (some (exnTypeStr e)) []])

/-! Concrete sample values used by witnesses. -/

/-- A concrete sparse matrix. -/
def sampleMatrix : SpMatrix :=
  { dtypeName := "float64", rows := 2, cols := 2,
    entries := [(0, 0, 1), (1, 1, 2)] }

/-- A concrete persisted artifact holding `sampleMatrix`. -/
def sampleArtifact : Artifact :=
  { loc := "s3/bucket/p", blob := save_npz sampleMatrix }

/-- A well-formed artifact map for `sampleArtifact`. -/
def sampleArtifacts : Artifacts := [(DataWriter.art_name, sampleArtifact)]

/-- A concrete reader holding an unbound descriptor. -/
def sampleReader : ScipyReader := ⟨{ dtype := "float64", data := none }⟩

/-- A non-sparse runtime value that nevertheless has a `dtype` attribute
(for example a numpy array). -/
def nonSparseValue : PyValue :=
  { isSparseMatrix := false, dtypeName := some "float64", matrix := none }

/-- A concrete loaded metadata object of class `MlemModel`, which is an
instance of `MlemModel` and of `MlemMeta`. -/
def sampleMeta : MlemMeta := ⟨"MlemModel", ["MlemModel", "MlemMeta"]⟩

/-- A concrete `load_meta` semantics returning `sampleMeta` on every
path. -/
def sampleLoadMeta :
    String → Option String → Option String → Except PyError MlemMeta :=
  fun _ _ _ => .ok sampleMeta

/-- C1: Round-trip — for every sparse matrix `v`, reading back the
artifacts produced by writing `process(v)`'s bound data reconstructs a
`DataType` bound to a matrix equivalent to `v` (same dtype, same nonzero
structure). -/
theorem scipy_write_read_roundtrip (v : SpMatrix) (w : ScipyWriter)
    (storage : Storage) (path : String) :
    ∃ dt r arts res m,
      ScipySparseMatrix.process (PyValue.ofMatrix v) = .ok dt ∧
      (ScipyWriter.write w (ScipySparseMatrix.bind dt v) storage path).1 =
        .ok (r, arts) ∧
      (ScipyReader.read r arts).1 = .ok res ∧
      res.data = some m ∧
      SpMatrix.equiv m v := by
  refine ⟨⟨v.dtypeName, none⟩, ⟨⟨v.dtypeName, some v⟩⟩,
    [(DataWriter.art_name, ⟨storage.uri ++ "/" ++ path, ⟨v⟩⟩)],
    ⟨v.dtypeName, some v⟩, v, rfl, rfl, ?_, rfl, ⟨rfl, rfl⟩⟩
  rfl

/-- C2: Artifact mismatch — when the writer-declared key
`DataWriter.art_name` is missing from the artifact map,
`ScipyReader.read` fails with a `ValueError` carrying the offending
artifacts and performs no best-effort read; when the key is present it
proceeds to reconstruct the value. -/
theorem scipy_read_artifact_mismatch (r : ScipyReader) (arts : Artifacts) :
    (Artifacts.find arts DataWriter.art_name = none →
      ScipyReader.read r arts =
        (.error (.valueError (wrongArtifactsMsg arts)), r)) ∧
    (∀ art, Artifacts.find arts DataWriter.art_name = some art →
      ScipyReader.read r arts =
        (.ok (ScipySparseMatrix.bind (ScipySparseMatrix.copy r.data_type)
          (load_npz art.blob)), r)) := by
  constructor
  · intro h
    unfold ScipyReader.read
    rw [h]
  · intro art h
    unfold ScipyReader.read
    rw [h]

/-- Witness for C2: both branches at concrete inputs — the empty
artifact map is rejected with the `ValueError`, and the well-formed map
is read. -/
theorem scipy_read_artifact_mismatch_witness :
    ScipyReader.read sampleReader [] =
      (.error (.valueError (wrongArtifactsMsg [])), sampleReader) ∧
    ScipyReader.read sampleReader sampleArtifacts =
      (.ok { dtype := "float64", data := some sampleMatrix }, sampleReader) :=
  ⟨(scipy_read_artifact_mismatch sampleReader []).1 rfl,
   (scipy_read_artifact_mismatch sampleReader sampleArtifacts).2
     sampleArtifact rfl⟩

/-- Counterexample for C3: `process` succeeds on a value that is not a
sparse matrix (it is any object with a `dtype` attribute, such as a
numpy array), so `process` does not fail when the value does not match
the variant's accepted shape. -/
theorem process_accepts_non_sparse_value :
    nonSparseValue.isSparseMatrix = false ∧
    ScipySparseMatrix.process nonSparseValue =
      .ok { dtype := "float64", data := none } :=
  ⟨rfl, rfl⟩

/-- C3 (amended): `process` is pure and metadata-only — it records the
value's `dtype` name into the returned descriptor, performs no
serialization and no side effects, and fails only when the value lacks a
`dtype` attribute; it does not itself validate that the value matches
the variant's accepted shape (that check is hook dispatch's job). -/
theorem process_metadata_only (obj : PyValue) :
    (∀ n, obj.dtypeName = some n →
      ScipySparseMatrix.process obj = .ok { dtype := n, data := none }) ∧
    (obj.dtypeName = none →
      ScipySparseMatrix.process obj = .error (.attributeError "dtype")) := by
  constructor
  · intro n h
    unfold ScipySparseMatrix.process
    rw [h]
  · intro h
    unfold ScipySparseMatrix.process
    rw [h]

/-- Witness for C3's amended theorem at concrete inputs: a value with
`dtype.name = "int32"` and a value with no `dtype` attribute. -/
theorem process_metadata_only_witness :
    ScipySparseMatrix.process (PyValue.mk true (some "int32") none) =
      .ok { dtype := "int32", data := none } ∧
    ScipySparseMatrix.process (PyValue.mk false none none) =
      .error (.attributeError "dtype") :=
  ⟨(process_metadata_only (PyValue.mk true (some "int32") none)).1 "int32" rfl,
   (process_metadata_only (PyValue.mk false none none)).2 rfl⟩

/-- C4: `write` produces exactly one artifact keyed by the
writer-declared constant name, through exactly one scoped storage handle
that is acquired and then released on every exit path (the event trace
is the same whether the body succeeds or raises), and on success returns
a `ScipyReader` bound to the written `DataType` descriptor paired with
the singleton artifact map. -/
theorem scipy_write_contract (w : ScipyWriter) (data : ScipySparseMatrix)
    (storage : Storage) (path : String) :
    (ScipyWriter.write w data storage path).2 =
      [.acquireHandle path, .releaseHandle path] ∧
    (∀ m, data.data = some m →
      (ScipyWriter.write w data storage path).1 =
        .ok (⟨data⟩, [(DataWriter.art_name,
          { loc := storage.uri ++ "/" ++ path, blob := save_npz m })])) ∧
    (data.data = none →
      (ScipyWriter.write w data storage path).1 =
        .error (.attributeError "data")) := by
  refine ⟨rfl, ?_, ?_⟩
  · intro m h
    simp [ScipyWriter.write, withStorageOpen, saveBoundData, h, Except.map]
  · intro h
    simp [ScipyWriter.write, withStorageOpen, saveBoundData, h, Except.map]

/-- Witness for C4 at concrete inputs: a bound descriptor is written to
one artifact under the constant name, and an unbound descriptor makes
the write fail as a whole. -/
theorem scipy_write_contract_witness :
    (ScipyWriter.write ⟨⟩ { dtype := "float64", data := some sampleMatrix }
        ⟨"s3"⟩ "p").1 =
      .ok (⟨{ dtype := "float64", data := some sampleMatrix }⟩,
        [(DataWriter.art_name,
          { loc := "s3" ++ "/" ++ "p", blob := save_npz sampleMatrix })]) ∧
    (ScipyWriter.write ⟨⟩ { dtype := "float64", data := none }
        ⟨"s3"⟩ "p").1 =
      .error (.attributeError "data") :=
  ⟨(scipy_write_contract ⟨⟩ { dtype := "float64", data := some sampleMatrix }
      ⟨"s3"⟩ "p").2.1 sampleMatrix rfl,
   (scipy_write_contract ⟨⟩ { dtype := "float64", data := none }
      ⟨"s3"⟩ "p").2.2 rfl⟩

/-- Counterexample for C5: at a concrete input, `read_batch` fails with
Python's builtin `NotImplementedError`, not with the mlem `NotSupported`
error the claim names. -/
theorem read_batch_error_is_not_notSupported :
    ScipyReader.read_batch sampleReader [] 1 =
      .error .notImplementedError ∧
    ScipyReader.read_batch sampleReader [] 1 ≠
      .error .notSupported := by
  refine ⟨rfl, ?_⟩
  intro hc
  simp [ScipyReader.read_batch] at hc

/-- C5 (amended): batched read is an unimplemented capability of the
sparse-matrix variant — for every artifact map and every batch size,
`ScipyReader.read_batch` unconditionally raises `NotImplementedError`
and never produces a sequence of `DataType` chunks. -/
theorem read_batch_always_unimplemented (r : ScipyReader)
    (arts : Artifacts) (batch_size : Int) :
    ScipyReader.read_batch r arts batch_size =
      .error .notImplementedError :=
  rfl

/-- C6: Alternative load path of the object builder — when the load
option is supplied, the subtype discriminator and the flat-config and
file-config inputs are ignored and the object is loaded and validated
from the named file's content; when it is absent, the object is built
from the discriminator and config entries via `build_mlem_object`. -/
theorem config_arg_load_branch {α : Type}
    (parse : String → Except PyError α)
    (build : String → List String → List String → Except PyError α)
    (fs : FileSystem) (subtype : String) (conf file_conf : List String) :
    (∀ p,
      config_arg_inner parse build fs (some p) subtype conf file_conf =
        (match fs.readFile p with
         | none => .error (.fileNotFound p)
         | some content => parse content) ∧
      (∀ subtype2 conf2 file_conf2,
        config_arg_inner parse build fs (some p) subtype2 conf2 file_conf2 =
          config_arg_inner parse build fs (some p) subtype conf file_conf)) ∧
    config_arg_inner parse build fs none subtype conf file_conf =
      build subtype conf file_conf :=
  ⟨fun _ => ⟨rfl, fun _ _ _ => rfl⟩, rfl⟩

/-- C7: Type constraint on metadata loading — when the metadata at a
path loads successfully and a required class is specified, the wrapper
raises `WrongMetaType` exactly when the loaded object is not an instance
of that class; otherwise (instance of the class, or no required class)
the command body receives the loaded object. -/
theorem with_meta_force_cls {α : Type}
    (loadMeta : String → Option String → Option String → Except PyError MlemMeta)
    (f : MlemMeta → α) (path : String) (repo rev : Option String)
    (meta : MlemMeta) (h : loadMeta path repo rev = .ok meta) :
    (∀ cls, meta.isInstanceOf cls = false →
      with_meta_inner loadMeta (some cls) f path repo rev =
        .error (.wrongMetaType meta.className cls)) ∧
    (∀ cls, meta.isInstanceOf cls = true →
      with_meta_inner loadMeta (some cls) f path repo rev = .ok (f meta)) ∧
    with_meta_inner loadMeta none f path repo rev = .ok (f meta) := by
  unfold with_meta_inner
  rw [h]
  refine ⟨fun cls hc => ?_, fun cls hc => ?_, rfl⟩
  · simp [hc]
  · simp [hc]

/-- Witness for C7 at concrete inputs: a loaded `MlemModel` object is
rejected against required class `MlemData` with `WrongMetaType`,
accepted against `MlemMeta`, and passed through when no class is
required. -/
theorem with_meta_force_cls_witness :
    with_meta_inner sampleLoadMeta (some "MlemData") MlemMeta.className
        "p" none none =
      .error (.wrongMetaType "MlemModel" "MlemData") ∧
    with_meta_inner sampleLoadMeta (some "MlemMeta") MlemMeta.className
        "p" none none = .ok "MlemModel" ∧
    with_meta_inner sampleLoadMeta none MlemMeta.className
        "p" none none = .ok "MlemModel" :=
  ⟨(with_meta_force_cls sampleLoadMeta MlemMeta.className "p" none none
      sampleMeta rfl).1 "MlemData" (by decide),
   (with_meta_force_cls sampleLoadMeta MlemMeta.className "p" none none
      sampleMeta rfl).2.1 "MlemMeta" (by decide),
   (with_meta_force_cls sampleLoadMeta MlemMeta.className "p" none none
      sampleMeta rfl).2.2⟩

/-- C8: Error propagation — when the wrapped command function raises an
exception, the `_send_analytics` wrapper surfaces that same exception
unchanged to the caller, after exactly one call into the wrapped
function (no retry) and after the `send_cli_call` performed in the
`finally` block; the error is never swallowed or replaced. -/
theorem send_analytics_error_propagation (cmdName : String) (e : PyExn) :
    sendAnalyticsInner cmdName (.error e) =
      (.error e,
       [.callWrapped, .sendCliCall cmdName (some (exnTypeStr e)) []]) ∧
    ((sendAnalyticsInner cmdName (.error e)).2.count .callWrapped = 1) :=
  ⟨rfl, rfl⟩

/-- C9: Read binds a fresh descriptor — on every successful read, the
returned `DataType` is a copy of the reader's stored descriptor with the
newly loaded value bound to it, and the reader itself (its `data_type`
field included) is returned unchanged. -/
theorem scipy_read_fresh_descriptor (r : ScipyReader) (arts : Artifacts)
    (art : Artifact)
    (h : Artifacts.find arts DataWriter.art_name = some art) :
    ScipyReader.read r arts =
      (.ok { dtype := r.data_type.dtype,
             data := some (load_npz art.blob) }, r) := by
  unfold ScipyReader.read
  rw [h]
  rfl

/-- Witness for C9 at a concrete reader and artifact map. -/
theorem scipy_read_fresh_descriptor_witness :
    ScipyReader.read sampleReader sampleArtifacts =
      (.ok { dtype := "float64", data := some sampleMatrix }, sampleReader) :=
  scipy_read_fresh_descriptor sampleReader sampleArtifacts sampleArtifact rfl

/-- C10: Descriptor noninterference — `process` depends only on the
value's `dtype` name: any two runtime values with equal `dtype` names
yield equal results, so matrix contents, shape and sparsity structure
never influence the produced descriptor. -/
theorem process_depends_only_on_dtype (o1 o2 : PyValue)
    (h : o1.dtypeName = o2.dtypeName) :
    ScipySparseMatrix.process o1 = ScipySparseMatrix.process o2 := by
  unfold ScipySparseMatrix.process
  rw [h]

/-- Witness for C10 at concrete inputs: a sparse matrix value and a
non-sparse, matrix-free value with the same `dtype` name produce the
same descriptor. -/
theorem process_depends_only_on_dtype_witness :
    ScipySparseMatrix.process (PyValue.mk true (some "float64") (some sampleMatrix)) =
      ScipySparseMatrix.process (PyValue.mk false (some "float64") none) :=
  process_depends_only_on_dtype
    (PyValue.mk true (some "float64") (some sampleMatrix))
    (PyValue.mk false (some "float64") none) rfl
